import Mathlib

/-!
Shallow embedding of the agent orchestration and delegation gateway:
the Orchestrator Facade (`AgentApp.query` in `agents/app/agent_engine_app.py`),
the Remote Delegation Client (`call_remote_agent` in `agents/maestro/agent.py`)
and the Specialist Registry (`specialist_tools` in `agents/maestro/agent.py`).

Python dictionaries and ADK objects are embedded as Lean structures; machine
side effects (HTTP, database, logging) are embedded as explicit data: the
runner's emitted event stream is a finite list plus an optional fault, the
session database is a list of key triples plus an operation log, and the HTTP
round trip of a delegation call is a record carrying the transport status, the
raw body and the parsed event list.
-/

set_option maxRecDepth 4000

/-! ### Turn events as seen by the facade (ADK `Event` objects)

`agents/app/agent_engine_app.py` reads `event.is_final_response()`,
`event.content` (possibly `None`), `event.content.parts` (a list), and
`part.text` (possibly `None`). -/

/-- An ADK content part: `part.text` is `None` or a string. -/
structure AdkPart where
  text : Option String
deriving DecidableEq, Repr

/-- An ADK content object: an ordered list of parts. -/
structure Content where
  parts : List AdkPart
deriving DecidableEq, Repr

/-- An ADK turn event as consumed by `AgentApp.query`: the final-response flag
and an optional content. -/
structure Event where
  is_final_response : Bool
  content : Option Content
deriving DecidableEq, Repr

/-- The accumulator loop of `AgentApp.query` (lines 101-109): for each event
with the final-response flag set, a content object present (truthy) and a
non-empty parts list, take `parts[0].text` and append it when it is truthy
(neither `None` nor the empty string). -/
def full_response_parts : List Event → List String
  | [] => []
  | e :: rest =>
    (if e.is_final_response then
      match e.content with
      | some c =>
        match c.parts with
        | [] => []
        | p :: _ =>
          match p.text with
          | some t => if t = "" then [] else [t]
          | none => []
      | none => []
    else []) ++ full_response_parts rest

/-- `"".join(full_response_parts)` (line 114): concatenation with no
separator. -/
def full_response (events : List Event) : String :=
  String.join (full_response_parts events)

/-! ### The session store and the facade `query`

`DatabaseSessionService` is external; its contract (spec section 4.1) is
`get` returning the session or absent and `create` materializing the record.
The store is embedded as the list of existing `(app_name, user_id,
session_id)` triples, and each `query` call additionally returns the list of
store operations it issued, in order. -/

/-- A session key triple `(app_name, user_id, session_id)`. -/
abbrev SessionTriple := String × String × String

/-- The session database: the set of existing session triples. -/
abbrev StoreState := List SessionTriple

/-- One store operation issued by the facade. -/
inductive StoreOp where
  | get (app user session : String)
  | create (app user session : String)
deriving DecidableEq, Repr

/-- `get_session`: returns the session id when the triple exists, absent
otherwise. -/
def get_session (st : StoreState) (app user session : String) : Option String :=
  if (app, user, session) ∈ st then some session else none

/-- `create_session`: materializes the triple and returns the new store and
the created session's id. -/
def create_session (st : StoreState) (app user session : String) :
    StoreState × String :=
  ((app, user, session) :: st, session)

/-- The outcome of driving the runner's event stream once: the events emitted
before the stream ended, and, when the iteration raised, the fault's
description (the events already emitted at that point are in `emitted`). -/
structure RunOutcome where
  emitted : List Event
  fault : Option String
deriving DecidableEq, Repr

/-- The facade's result envelope: `{"response": ..., "session_id": ...,
"user_id": ...}` on success, `{"error": ...}` on any failure path. -/
inductive QueryOutput where
  | ok (response : String) (session_id : String) (user_id : String)
  | error (msg : String)
deriving DecidableEq, Repr

/-- What one `query` call produced: its returned envelope, the store state it
left behind, and the store operations it issued in order. -/
structure QueryTrace where
  output : QueryOutput
  store : StoreState
  ops : List StoreOp
deriving DecidableEq, Repr

/-- The try/except around the event loop (lines 101-117): a fault yields the
execution-error envelope (the accumulated parts are discarded); otherwise the
reduction of the emitted events is returned with the session and user ids. -/
def turn_result (run : RunOutcome) (sess_id uid : String) : QueryOutput :=
  match run.fault with
  | some e => .error ("An error occurred during agent execution: " ++ e)
  | none => .ok (full_response run.emitted) sess_id uid

/-- `AgentApp.query` (lines 72-117). `app` is `self._agent.name`; `run` is
the runner's behaviour for this turn; `fresh_user` / `fresh_session` stand
for the `str(uuid.uuid4())` defaults drawn when the corresponding argument is
absent or empty (Python `or` treats `""` as falsy). The `set_up` branch
(line 76-77) touches no session state and is not modelled. -/
def query (app : String) (store : StoreState) (run : RunOutcome) (text : String)
    (user_id session_id : Option String) (fresh_user fresh_session : String) :
    QueryTrace :=
  if text = "" then
    { output := .error "Input 'text' is missing from the query.",
      store := store, ops := [] }
  else
    let uid := match user_id with
      | some u => if u = "" then fresh_user else u
      | none => fresh_user
    let sid := match session_id with
      | some s => if s = "" then fresh_session else s
      | none => fresh_session
    match get_session store app uid sid with
    | some sess_id =>
      { output := turn_result run sess_id uid,
        store := store,
        ops := [.get app uid sid] }
    | none =>
      let created := create_session store app uid sid
      { output := turn_result run created.2 uid,
        store := created.1,
        ops := [.get app uid sid, .create app uid sid] }

/-- How many `create` operations for the triple `(app, user, session)` a log
contains. -/
def create_count (app user session : String) (ops : List StoreOp) : Nat :=
  (ops.filter (fun op => op = .create app user session)).length

/-! ### The remote delegation client (`call_remote_agent`)

The specialist's reply is JSON: a list of event dictionaries, read with
`event.get("is_final_response")` and `event.get("content", {}).get("parts",
[])`, each part read with `part.get("text", "")`. A missing `content` or
`parts` key collapses to the empty parts list, which the embedding stores
directly. -/

/-- A JSON part of a specialist event: the `"text"` key is present with a
string, or absent. -/
structure RPart where
  text : Option String
deriving DecidableEq, Repr

/-- A JSON specialist event: the truthiness of `event.get("is_final_response")`
and the list `event.get("content", {}).get("parts", [])`. -/
structure REvent where
  is_final_response : Bool
  parts : List RPart
deriving DecidableEq, Repr

/-- `part.get("text", "")`: the text, defaulting to the empty string. -/
def part_text (p : RPart) : String :=
  p.text.getD ""

/-- Lines 58-62: `" ".join(part.get("text", "") for event in events if
event.get("is_final_response") for part in ...parts)`. Every part of every
final-flagged event contributes one entry (the empty string when the part has
no text), and the entries are joined with a single space. -/
def final_response_text (events : List REvent) : String :=
  String.intercalate " "
    (((events.filter (fun e => e.is_final_response)).flatMap
      (fun e => e.parts)).map part_text)

/-- One part of the outbound `new_message`. -/
structure MessagePart where
  text : String
deriving DecidableEq, Repr

/-- The outbound `new_message` dictionary. -/
structure NewMessage where
  role : String
  parts : List MessagePart
deriving DecidableEq, Repr

/-- The request envelope POSTed to `{agent_url}/run` (lines 43-49). -/
structure RunPayload where
  app_name : String
  user_id : String
  session_id : String
  new_message : NewMessage
  streaming : Bool
deriving DecidableEq, Repr

/-- The tool's returned dictionary: `status` is `"success"` or `"error"`, and
`response` / `message` model the presence of the corresponding keys. -/
structure ToolEnvelope where
  status : String
  response : Option String
  message : Option String
deriving DecidableEq, Repr

/-- The transport's answer to the POST: the status code, the raw body
(`response.text`) and the body parsed as an event list (`response.json()`). -/
structure HttpResponse where
  status_code : Nat
  body : String
  events : List REvent
deriving DecidableEq, Repr

/-- `response.raise_for_status()` raises exactly when the status is not a
success (2xx) status. -/
def http_success (r : HttpResponse) : Prop :=
  200 ≤ r.status_code ∧ r.status_code < 300

instance (r : HttpResponse) : Decidable (http_success r) := by
  unfold http_success; infer_instance

/-- The message of the `httpx.HTTPStatusError` branch (line 70):
`f"HTTP error calling '{agent_name}': {e.response.status_code} -
{e.response.text}"`. -/
def http_error_message (agent_name : String) (r : HttpResponse) : String :=
  "HTTP error calling '" ++ agent_name ++ "': " ++ toString r.status_code
    ++ " - " ++ r.body

/-- `call_remote_agent` (lines 30-76), given the transport's answer `resp` to
its POST. Returns the payload it POSTed together with the envelope it returns
to the oracle: on a non-2xx status `raise_for_status` raises and the
`HTTPStatusError` handler returns the error envelope; on 2xx the final texts
are flattened, an empty (falsy) joined string yields the no-final-text error
envelope, and otherwise the success envelope carries the joined text. The
Python function catches every exception, so it never raises to its caller. -/
def call_remote_agent (agent_name query_text user_id sub_session_id : String)
    (resp : HttpResponse) : RunPayload × ToolEnvelope :=
  let payload : RunPayload :=
    { app_name := agent_name
      user_id := user_id
      session_id := sub_session_id
      new_message := { role := "user", parts := [{ text := query_text }] }
      streaming := false }
  if http_success resp then
    let t := final_response_text resp.events
    if t = "" then
      (payload, { status := "error", response := none,
                  message := some "Remote agent did not return a final text response." })
    else
      (payload, { status := "success", response := some t, message := none })
  else
    (payload, { status := "error", response := none,
                message := some (http_error_message agent_name resp) })

/-- Model of `str(uuid.uuid4())`, the fresh sub-session id drawn at line 41:
an injective fresh-identifier source indexed by the draw number. The only
property of uuid4 the code relies on is that distinct draws yield distinct
identifiers, which this model makes provable. -/
def uuid4 (draw : Nat) : String :=
  String.mk (List.replicate draw 'u')

/-- `call_remote_agent` with its sub-session id drawn from the fresh-id
source, as at line 41: `sub_session_id = str(uuid.uuid4())`. -/
def call_remote_agent_draw (agent_name query_text user_id : String)
    (draw : Nat) (resp : HttpResponse) : RunPayload × ToolEnvelope :=
  call_remote_agent agent_name query_text user_id (uuid4 draw) resp

/-! ### The specialist registry (`specialist_tools`) -/

/-- A `FunctionTool` as built by `make_remote_agent_tool`: its name, the
specialist's base url it POSTs to, and the description given to the oracle. -/
structure FunctionTool where
  name : String
  url : String
  description : String
deriving DecidableEq, Repr

/-- The hardcoded `specialist_agent_info` table (lines 85-89). -/
def specialist_agent_info : List (String × String) :=
  [("nutrition-expert-service",
    "Provides personalized, evidence-based dietary advice for menopause symptoms."),
   ("life-coach-service",
    "Provides empathetic support and life coaching guidance for emotional challenges during menopause."),
   ("community-connector-service",
    "Connects users to menopause-related communities, stories, and directories.")]

/-- Python `str.split(sep)` for a one-character separator: splits on every
occurrence, keeping empty fields, so the result is always non-empty. -/
def py_split (sep : Char) : List Char → List (List Char)
  | [] => [[]]
  | c :: rest =>
    if c = sep then [] :: py_split sep rest
    else
      match py_split sep rest with
      | [] => [[c]]
      | g :: gs => (c :: g) :: gs

/-- Line 95: `url.split("/")[-1].split(".")[0]`, the name inferred from a
configured address. -/
def agent_name_from_url (url : String) : String :=
  String.mk ((py_split '.' ((py_split '/' url.data).getLastD [])).headD [])

/-- The registry construction loop (lines 91-100): for each configured
address, infer the name; when the name is a key of `specialist_agent_info`,
append one tool with that name, the address and the table's description;
otherwise do nothing for that address. -/
def specialist_tools (addresses : List String) : List FunctionTool :=
  addresses.filterMap (fun url =>
    match specialist_agent_info.lookup (agent_name_from_url url) with
    | some d => some { name := agent_name_from_url url, url := url, description := d }
    | none => none)

/-! ### Reference formulations used to compare the code with the spec's words -/

/-- The entries joined by the delegation client's flattening, written as a
direct recursion over the emission order: each final-flagged event
contributes the texts of all its parts (empty string when a part has no
text). Proved equal to the list inside `final_response_text`. -/
def flatten_final_texts : List REvent → List String
  | [] => []
  | e :: rest =>
    (if e.is_final_response then e.parts.map part_text else []) ++
      flatten_final_texts rest

/-- The flattening exactly as claim C2 words it: filter the final-flagged
events, flatten their parts' text fields SKIPPING parts without text, in
emission order, and join with a single space. Stated from the spec's words,
to be compared with `final_response_text` (which is from the source). -/
def claimed_final_response_text (events : List REvent) : String :=
  String.intercalate " "
    ((events.filter (fun e => e.is_final_response)).flatMap
      (fun e => e.parts.filterMap (fun p => p.text)))

/-! ### Helper lemmas -/

/-- The facade's accumulator distributes over concatenation of event lists. -/
theorem full_response_parts_append (xs ys : List Event) :
    full_response_parts (xs ++ ys) =
      full_response_parts xs ++ full_response_parts ys := by
  induction xs with
  | nil => rfl
  | cons e rest ih => simp [full_response_parts, ih]

/-- Events without the final-response flag contribute nothing to the facade's
accumulator. -/
theorem full_response_parts_eq_nil (xs : List Event)
    (h : ∀ e ∈ xs, e.is_final_response = false) :
    full_response_parts xs = [] := by
  induction xs with
  | nil => rfl
  | cons e rest ih =>
    have he := h e (by simp)
    simp [full_response_parts, he, ih (fun x hx => h x (by simp [hx]))]

/-- The list joined inside `final_response_text` equals the direct recursive
flattening `flatten_final_texts`. -/
theorem flatten_final_texts_eq (events : List REvent) :
    ((events.filter (fun e => e.is_final_response)).flatMap
      (fun e => e.parts)).map part_text = flatten_final_texts events := by
  induction events with
  | nil => rfl
  | cons e rest ih =>
    cases hf : e.is_final_response <;>
      simp [flatten_final_texts, List.filter_cons, hf, ih]

/-- The delegation client's joined text, written through the recursive
flattening. -/
theorem final_response_text_eq_flatten (events : List REvent) :
    final_response_text events =
      String.intercalate " " (flatten_final_texts events) := by
  rw [final_response_text, flatten_final_texts_eq]

/-- When the triple exists, `query` issues only a `get` and leaves the store
unchanged; the returned session id is the requested one. -/
theorem query_get_found (app : String) (store : StoreState) (r : RunOutcome)
    (t u s fu fs : String) (ht : t ≠ "") (hu : u ≠ "") (hs : s ≠ "")
    (hmem : (app, u, s) ∈ store) :
    query app store r t (some u) (some s) fu fs =
      { output := turn_result r s u, store := store,
        ops := [StoreOp.get app u s] } := by
  unfold query
  rw [if_neg ht]
  simp only [if_neg hu, if_neg hs]
  unfold get_session
  rw [if_pos hmem]

/-- When the triple is absent, `query` issues a `get` then a `create`, and
the created triple is added to the store. -/
theorem query_get_absent (app : String) (store : StoreState) (r : RunOutcome)
    (t u s fu fs : String) (ht : t ≠ "") (hu : u ≠ "") (hs : s ≠ "")
    (hmem : (app, u, s) ∉ store) :
    query app store r t (some u) (some s) fu fs =
      { output := turn_result r s u, store := (app, u, s) :: store,
        ops := [StoreOp.get app u s, StoreOp.create app u s] } := by
  unfold query
  rw [if_neg ht]
  simp only [if_neg hu, if_neg hs]
  unfold get_session
  rw [if_neg hmem]
  rfl

/-- Counting `create` operations distributes over log concatenation. -/
theorem create_count_append (app u s : String) (l1 l2 : List StoreOp) :
    create_count app u s (l1 ++ l2) =
      create_count app u s l1 + create_count app u s l2 := by
  simp [create_count, List.filter_append]

/-- A single `query` call issues at most one `create`. -/
theorem create_count_query_le (app : String) (store : StoreState)
    (r : RunOutcome) (t u s fu fs : String) (hu : u ≠ "") (hs : s ≠ "") :
    create_count app u s (query app store r t (some u) (some s) fu fs).ops ≤ 1 := by
  by_cases ht : t = ""
  · subst ht
    simp [query, create_count]
  · by_cases hmem : (app, u, s) ∈ store
    · rw [query_get_found app store r t u s fu fs ht hu hs hmem]
      simp [create_count]
    · rw [query_get_absent app store r t u s fu fs ht hu hs hmem]
      simp [create_count]

/-- On a 2xx transport status the returned envelope depends only on the
flattened text: the no-final-text error when it is empty, success carrying
it otherwise. -/
theorem call_remote_agent_2xx (n q u s : String) (resp : HttpResponse)
    (h2xx : http_success resp) :
    (call_remote_agent n q u s resp).2 =
      if final_response_text resp.events = "" then
        { status := "error", response := none,
          message := some "Remote agent did not return a final text response." }
      else
        { status := "success", response := some (final_response_text resp.events),
          message := none } := by
  simp only [call_remote_agent]
  rw [if_pos h2xx]
  by_cases he : final_response_text resp.events = "" <;> simp [he]

/-- On a non-2xx transport status the returned envelope is the HTTP error
one. -/
theorem call_remote_agent_non2xx (n q u s : String) (resp : HttpResponse)
    (h : ¬ http_success resp) :
    (call_remote_agent n q u s resp).2 =
      { status := "error", response := none,
        message := some (http_error_message n resp) } := by
  simp only [call_remote_agent]
  rw [if_neg h]

/-- Every tool in the registry comes from a configured address whose inferred
name is a key of the hardcoded table, and carries that name and the table's
description for it. -/
theorem specialist_tools_mem (addresses : List String) (t : FunctionTool)
    (ht : t ∈ specialist_tools addresses) :
    t.url ∈ addresses ∧ t.name = agent_name_from_url t.url ∧
      specialist_agent_info.lookup t.name = some t.description := by
  rw [specialist_tools, List.mem_filterMap] at ht
  obtain ⟨a, ha, hfa⟩ := ht
  cases hl : specialist_agent_info.lookup (agent_name_from_url a) with
  | none => rw [hl] at hfa; cases hfa
  | some d =>
    rw [hl] at hfa
    have := Option.some.inj hfa
    subst this
    exact ⟨ha, rfl, hl⟩

/-! ### The claims -/

/-- C1: the facade's event-stream reduction, applied to an emitted sequence
whose only final-response events carry first-part texts "A" and "B" in that
order (each with at least one part), returns "AB"; applied to a sequence with
zero final-response events, `query` returns the success envelope with the
empty response string — not an error. -/
theorem C1_runner_reduction
    (pre mid post : List Event) (restA restB : List AdkPart)
    (hpre : ∀ e ∈ pre, e.is_final_response = false)
    (hmid : ∀ e ∈ mid, e.is_final_response = false)
    (hpost : ∀ e ∈ post, e.is_final_response = false)
    (app : String) (store : StoreState) (t u s fu fs : String)
    (ht : t ≠ "") (hu : u ≠ "") (hs : s ≠ "") :
    full_response
      (pre ++ Event.mk true (some ⟨AdkPart.mk (some "A") :: restA⟩) ::
        (mid ++ Event.mk true (some ⟨AdkPart.mk (some "B") :: restB⟩) :: post)) = "AB" ∧
    ∀ evs : List Event, (∀ e ∈ evs, e.is_final_response = false) →
      (query app store ⟨evs, none⟩ t (some u) (some s) fu fs).output =
        QueryOutput.ok "" s u := by
  constructor
  · rw [full_response, full_response_parts_append,
      full_response_parts_eq_nil pre hpre]
    simp only [List.nil_append, full_response_parts, full_response_parts_append,
      full_response_parts_eq_nil mid hmid, full_response_parts_eq_nil post hpost]
    decide
  · intro evs hevs
    have hresp : full_response evs = "" := by
      rw [full_response, full_response_parts_eq_nil evs hevs]; rfl
    unfold query
    rw [if_neg ht]
    simp only [if_neg hu, if_neg hs]
    cases hg : get_session store app u s with
    | some x =>
      have hx : x = s := by
        unfold get_session at hg
        by_cases hmem : (app, u, s) ∈ store
        · rw [if_pos hmem] at hg; exact (Option.some.injEq _ _ ▸ hg).symm
        · rw [if_neg hmem] at hg; cases hg
      subst hx
      simp [turn_result, hresp]
    | none =>
      simp [turn_result, create_session, hresp]

/-- Witness for C1 at a concrete two-event sequence and a concrete empty
(final-response-free) sequence. -/
theorem C1_runner_reduction_witness :
    full_response [Event.mk true (some ⟨[AdkPart.mk (some "A")]⟩),
      Event.mk true (some ⟨[AdkPart.mk (some "B")]⟩)] = "AB" ∧
    (query "maestro_agent" [] ⟨[], none⟩ "hi" (some "u1") (some "s1") "fu" "fs").output =
      QueryOutput.ok "" "s1" "u1" := by
  have h := C1_runner_reduction [] [] [] [] [] (by simp) (by simp) (by simp)
    "maestro_agent" [] "hi" "u1" "s1" "fu" "fs" (by decide) (by decide) (by decide)
  exact ⟨h.1, h.2 [] (by simp)⟩

/-- C2 counterexample: on a 200 response with one final event whose parts are
`[{text: "a"}, {}, {text: "b"}]`, the code joins `["a", "", "b"]` and returns
"a  b" (two spaces), while the claim's flattening — which skips the part
without text — yields "a b"; the two differ, so the claim as stated is
false. -/
theorem C2_flatten_counterexample :
    (call_remote_agent "life-coach-service" "q" "u" "sub"
        ⟨200, "", [⟨true, [⟨some "a"⟩, ⟨none⟩, ⟨some "b"⟩]⟩]⟩).2 =
      { status := "success", response := some "a  b", message := none } ∧
    claimed_final_response_text [⟨true, [⟨some "a"⟩, ⟨none⟩, ⟨some "b"⟩]⟩] = "a b" ∧
    ("a  b" : String) ≠ "a b" := by
  refine ⟨by decide, by decide, by decide⟩

/-- C2 as amended: for every 2xx response, the delegation client takes
exactly the events whose final-response flag is set and, in emission order,
maps EVERY part to its text field with the empty string as default (parts
without text contribute empty entries rather than being skipped), joins the
entries with a single space, and returns that string as the response text
whenever it is non-empty. -/
theorem C2_flatten_amended (agent_name query_text user_id sub_session_id : String)
    (resp : HttpResponse)
    (h2xx : 200 ≤ resp.status_code ∧ resp.status_code < 300)
    (hne : String.intercalate " " (flatten_final_texts resp.events) ≠ "") :
    (call_remote_agent agent_name query_text user_id sub_session_id resp).2 =
      { status := "success",
        response := some (String.intercalate " " (flatten_final_texts resp.events)),
        message := none } := by
  have hfr := final_response_text_eq_flatten resp.events
  rw [call_remote_agent_2xx agent_name query_text user_id sub_session_id resp h2xx,
    hfr, if_neg hne]

/-- Witness for the amended C2 at a 200 response with one final event
carrying one text part. -/
theorem C2_flatten_amended_witness :
    (call_remote_agent "life-coach-service" "q" "u" "sub"
        ⟨200, "", [⟨true, [⟨some "ok"⟩]⟩]⟩).2 =
      { status := "success",
        response := some (String.intercalate " "
          (flatten_final_texts [⟨true, [⟨some "ok"⟩]⟩])),
        message := none } :=
  C2_flatten_amended "life-coach-service" "q" "u" "sub"
    ⟨200, "", [⟨true, [⟨some "ok"⟩]⟩]⟩ (by decide) (by decide)

/-- C3 counterexample: a 200 response with one final event whose two parts
both lack text flattens to `["", ""]`, joins to the single-space string " ",
which is truthy in Python, so the code returns a SUCCESS envelope carrying
" " — not the `{status: error}` envelope the claim requires for final events
whose parts all lack text. -/
theorem C3_empty_text_counterexample :
    (call_remote_agent "life-coach-service" "q" "u" "sub"
        ⟨200, "", [⟨true, [⟨none⟩, ⟨none⟩]⟩]⟩).2 =
      { status := "success", response := some " ", message := none } ∧
    ({ status := "success", response := some " ", message := none } :
      ToolEnvelope).status ≠ "error" := by
  refine ⟨by decide, by decide⟩

/-- C3 as amended: for every 2xx response, the delegation client returns the
no-final-text error envelope exactly when the space-joined flattened text is
the empty string (final events whose several parts all lack text join to
whitespace and are reported as success); whenever the joined text is
non-empty it returns the success envelope carrying it; and for every
transport outcome exactly one of `response` / `message` is populated. -/
theorem C3_empty_text_amended (n q u s : String) (resp : HttpResponse)
    (h2xx : 200 ≤ resp.status_code ∧ resp.status_code < 300) :
    ((call_remote_agent n q u s resp).2 =
        { status := "error", response := none,
          message := some "Remote agent did not return a final text response." } ↔
      final_response_text resp.events = "") ∧
    (final_response_text resp.events ≠ "" →
      (call_remote_agent n q u s resp).2 =
        { status := "success", response := some (final_response_text resp.events),
          message := none }) ∧
    ∀ r2 : HttpResponse,
      ((call_remote_agent n q u s r2).2.response.isSome ↔
        (call_remote_agent n q u s r2).2.message = none) := by
  rw [call_remote_agent_2xx n q u s resp h2xx]
  refine ⟨?_, ?_, ?_⟩
  · by_cases he : final_response_text resp.events = "" <;> simp [he]
  · intro hne
    rw [if_neg hne]
  · intro r2
    by_cases h2 : http_success r2
    · rw [call_remote_agent_2xx n q u s r2 h2]
      by_cases he : final_response_text r2.events = "" <;> simp [he]
    · rw [call_remote_agent_non2xx n q u s r2 h2]
      simp

/-- Witness for the amended C3: a 200 response with no events yields the
no-final-text error envelope. -/
theorem C3_empty_text_amended_witness :
    (call_remote_agent "life-coach-service" "q" "u" "sub" ⟨200, "", []⟩).2 =
      { status := "error", response := none,
        message := some "Remote agent did not return a final text response." } :=
  ((C3_empty_text_amended "life-coach-service" "q" "u" "sub" ⟨200, "", []⟩
    (by decide)).1).mpr (by decide)

/-- C4: for every non-2xx transport status, the delegation call returns the
`{status: error}` envelope whose message carries the status code and the
response body; the Lean embedding is a total function returning this
envelope, mirroring that the Python handler catches `HTTPStatusError` and
never re-raises to its caller. -/
theorem C4_transport_error (n q u s : String) (resp : HttpResponse)
    (h : ¬ (200 ≤ resp.status_code ∧ resp.status_code < 300)) :
    (call_remote_agent n q u s resp).2 =
      { status := "error", response := none,
        message := some ("HTTP error calling '" ++ n ++ "': " ++
          toString resp.status_code ++ " - " ++ resp.body) } :=
  call_remote_agent_non2xx n q u s resp h

/-- Witness for C4 at HTTP 500. -/
theorem C4_transport_error_witness :
    (call_remote_agent "nutrition-expert-service" "q" "u" "sub" ⟨500, "boom", []⟩).2 =
      { status := "error", response := none,
        message := some ("HTTP error calling '" ++ "nutrition-expert-service" ++ "': " ++
          toString (500 : Nat) ++ " - " ++ "boom") } :=
  C4_transport_error "nutrition-expert-service" "q" "u" "sub" ⟨500, "boom", []⟩
    (by decide)

/-- C5: for every fault raised while iterating the turn's event sequence,
`query` returns the structured error envelope embedding the failure
description; the emitted prefix is universally quantified and absent from
the result, so all partially accumulated response text is discarded and no
exception escapes the facade. -/
theorem C5_runner_fault (app : String) (store : StoreState) (emitted : List Event)
    (msg t : String) (uid sid : Option String) (fu fs : String) (ht : t ≠ "") :
    (query app store ⟨emitted, some msg⟩ t uid sid fu fs).output =
      QueryOutput.error ("An error occurred during agent execution: " ++ msg) := by
  simp only [query]
  rw [if_neg ht]
  repeat' split
  all_goals rfl

/-- Witness for C5 with a concrete fault after one final event was emitted. -/
theorem C5_runner_fault_witness :
    (query "maestro_agent" []
        ⟨[Event.mk true (some ⟨[AdkPart.mk (some "halfway")]⟩)], some "boom"⟩
        "hi" (some "u") (some "s") "fu" "fs").output =
      QueryOutput.error "An error occurred during agent execution: boom" :=
  (C5_runner_fault "maestro_agent" [] [Event.mk true (some ⟨[AdkPart.mk (some "halfway")]⟩)]
    "boom" "hi" (some "u") (some "s") "fu" "fs" (by decide)).trans (by decide)

/-- C6: `query` with empty text returns exactly the
`{"error": "Input 'text' is missing from the query."}` envelope, leaves the
store unchanged and issues no store operation at all (no `get`, no
`create`). -/
theorem C6_missing_text (app : String) (store : StoreState) (r : RunOutcome)
    (uid sid : Option String) (fu fs : String) :
    query app store r "" uid sid fu fs =
      { output := .error "Input 'text' is missing from the query.",
        store := store, ops := [] } := rfl

/-- C7: `query` resolves the session through the store's `get` and issues a
`create` only when that `get` found nothing; consequently two successive
`query` calls with the same user and session ids issue at most one `create`
for that triple in total. -/
theorem C7_create_at_most_once (app : String) (store : StoreState)
    (r1 r2 : RunOutcome) (t1 t2 u s fu1 fs1 fu2 fs2 : String)
    (hu : u ≠ "") (hs : s ≠ "") :
    (StoreOp.create app u s ∈ (query app store r1 t1 (some u) (some s) fu1 fs1).ops →
      get_session store app u s = none) ∧
    create_count app u s
      ((query app store r1 t1 (some u) (some s) fu1 fs1).ops ++
        (query app (query app store r1 t1 (some u) (some s) fu1 fs1).store
          r2 t2 (some u) (some s) fu2 fs2).ops) ≤ 1 := by
  rw [create_count_append]
  by_cases ht1 : t1 = ""
  · subst ht1
    have h1 : query app store r1 "" (some u) (some s) fu1 fs1 =
        { output := .error "Input 'text' is missing from the query.",
          store := store, ops := [] } := rfl
    rw [h1]
    refine ⟨fun hc => absurd hc (by simp), ?_⟩
    simpa [create_count] using
      create_count_query_le app store r2 t2 u s fu2 fs2 hu hs
  · by_cases hmem : (app, u, s) ∈ store
    · rw [query_get_found app store r1 t1 u s fu1 fs1 ht1 hu hs hmem]
      refine ⟨fun hc => absurd hc (by simp), ?_⟩
      have h2 := create_count_query_le app store r2 t2 u s fu2 fs2 hu hs
      have hz : create_count app u s [StoreOp.get app u s] = 0 := by
        simp [create_count]
      dsimp only
      rw [hz]
      omega
    · rw [query_get_absent app store r1 t1 u s fu1 fs1 ht1 hu hs hmem]
      refine ⟨fun _ => by unfold get_session; rw [if_neg hmem], ?_⟩
      have h1 : create_count app u s [StoreOp.get app u s, StoreOp.create app u s] = 1 := by
        simp [create_count]
      by_cases ht2 : t2 = ""
      · subst ht2
        have h2 : query app ((app, u, s) :: store) r2 "" (some u) (some s) fu2 fs2 =
            { output := .error "Input 'text' is missing from the query.",
              store := (app, u, s) :: store, ops := [] } := rfl
        rw [h2]
        simp [create_count, h1]
      · rw [query_get_found app ((app, u, s) :: store) r2 t2 u s fu2 fs2 ht2 hu hs
          (List.mem_cons_self _ _)]
        have h2 : create_count app u s [StoreOp.get app u s] = 0 := by
          simp [create_count]
        dsimp only
        rw [h1, h2]

/-- Witness for C7: two calls on an initially empty store with the same user
and session ids issue at most one `create`. -/
theorem C7_create_at_most_once_witness :
    create_count "maestro_agent" "u1" "s1"
      ((query "maestro_agent" [] ⟨[], none⟩ "hi" (some "u1") (some "s1") "fu1" "fs1").ops ++
        (query "maestro_agent"
          (query "maestro_agent" [] ⟨[], none⟩ "hi" (some "u1") (some "s1") "fu1" "fs1").store
          ⟨[], none⟩ "again" (some "u1") (some "s1") "fu2" "fs2").ops) ≤ 1 :=
  (C7_create_at_most_once "maestro_agent" [] ⟨[], none⟩ ⟨[], none⟩ "hi" "again"
    "u1" "s1" "fu1" "fs1" "fu2" "fs2" (by decide) (by decide)).2

/-- C8: every delegation call POSTs exactly the envelope
`{app_name, user_id, session_id: fresh draw, new_message: {role: "user",
parts: [{text: query}]}, streaming: false}`, and the fresh-id source gives a
sub-session id distinct from the id of every other draw — in particular
distinct across calls and from a parent session id drawn elsewhere. -/
theorem C8_payload_shape (n q u : String) (draw : Nat) (resp : HttpResponse) :
    (call_remote_agent_draw n q u draw resp).1 =
      { app_name := n, user_id := u, session_id := uuid4 draw,
        new_message := { role := "user", parts := [{ text := q }] },
        streaming := false } ∧
    ∀ d2 : Nat, d2 ≠ draw → uuid4 d2 ≠ uuid4 draw := by
  constructor
  · simp only [call_remote_agent_draw, call_remote_agent]
    repeat' split
    all_goals rfl
  · intro d2 hne heq
    apply hne
    have hd : List.replicate d2 'u' = List.replicate draw 'u' :=
      congrArg String.data heq
    have hl := congrArg List.length hd
    simpa using hl

/-- Witness for C8 at draw 1, with draw 0 as the other id. -/
theorem C8_payload_shape_witness :
    (call_remote_agent_draw "life-coach-service" "q" "u" 1 ⟨200, "", []⟩).1 =
      { app_name := "life-coach-service", user_id := "u", session_id := uuid4 1,
        new_message := { role := "user", parts := [{ text := "q" }] },
        streaming := false } ∧
    uuid4 0 ≠ uuid4 1 :=
  ⟨(C8_payload_shape "life-coach-service" "q" "u" 1 ⟨200, "", []⟩).1,
   (C8_payload_shape "life-coach-service" "q" "u" 1 ⟨200, "", []⟩).2 0 (by decide)⟩

/-- C9: the registry built from the configured addresses has exactly one tool
per address whose inferred name is in the hardcoded table (the construction
is a total function — unmatched addresses are skipped with no error), every
tool carries the inferred name and that name's table description, and an
address whose inferred name is not in the table yields no tool at all. -/
theorem C9_registry_matching (addresses : List String) :
    (specialist_tools addresses).length =
      (addresses.filter (fun url =>
        (specialist_agent_info.lookup (agent_name_from_url url)).isSome)).length ∧
    (∀ t ∈ specialist_tools addresses,
      t.url ∈ addresses ∧ t.name = agent_name_from_url t.url ∧
      specialist_agent_info.lookup t.name = some t.description) ∧
    (∀ url ∈ addresses,
      specialist_agent_info.lookup (agent_name_from_url url) = none →
      ∀ t ∈ specialist_tools addresses, t.url ≠ url) := by
  refine ⟨?_, fun t ht => specialist_tools_mem addresses t ht, ?_⟩
  · induction addresses with
    | nil => rfl
    | cons a rest ih =>
      cases hl : specialist_agent_info.lookup (agent_name_from_url a) <;>
        simp [specialist_tools, List.filter_cons, hl, ih] <;>
        simpa [specialist_tools] using ih
  · intro url _ hnone t htl hteq
    have h2 := specialist_tools_mem addresses t htl
    rw [h2.2.1, hteq, hnone] at h2
    cases h2.2.2

/-- Witness for C9 on one matching and one unmatched address. -/
theorem C9_registry_matching_witness :
    (specialist_tools ["http://h/nutrition-expert-service", "http://h/mystery-service"]).length =
      (["http://h/nutrition-expert-service", "http://h/mystery-service"].filter (fun url =>
        (specialist_agent_info.lookup (agent_name_from_url url)).isSome)).length ∧
    ({ name := "nutrition-expert-service", url := "http://h/nutrition-expert-service",
       description := "Provides personalized, evidence-based dietary advice for menopause symptoms." } :
      FunctionTool).url ≠ "http://h/mystery-service" := by
  refine ⟨(C9_registry_matching _).1, ?_⟩
  exact (C9_registry_matching ["http://h/nutrition-expert-service", "http://h/mystery-service"]).2.2
    "http://h/mystery-service" (by decide) (by decide) _ (by decide)

/-- C10: the facade's reduction appends only the first part's text of a final
event — replacing every part after the first changes nothing in the output —
while the delegation client flattens all parts of a final event, as the
contrasting concrete pair shows ("x" versus "x y"). -/
theorem C10_first_part_only (p : AdkPart) (ps ps2 : List AdkPart)
    (pre post : List Event) :
    full_response (pre ++ Event.mk true (some ⟨p :: ps⟩) :: post) =
      full_response (pre ++ Event.mk true (some ⟨p :: ps2⟩) :: post) ∧
    final_response_text [⟨true, [⟨some "x"⟩, ⟨some "y"⟩]⟩] = "x y" ∧
    full_response [⟨true, some ⟨[⟨some "x"⟩, ⟨some "y"⟩]⟩⟩] = "x" := by
  refine ⟨?_, by decide, by decide⟩
  rw [full_response, full_response, full_response_parts_append,
    full_response_parts_append]
  rfl
